import Mathlib

/-!
Verification of the task-management rule engine.

This file gives a shallow embedding of the repository's backend rule
engine (taskRules.ts, taskAttachmentRules.ts) and of its stored
procedures (spTaskCreate.sql, spTaskUpdate.sql, spTaskDelete.sql,
spTaskGet.sql, spTaskAttachmentCreate.sql), and proves behavioural
claims about them.

Modelling conventions:
- Timestamps and dates are integers (milliseconds since epoch for the
  in-memory engine; day-resolution integers for stored-procedure DATE
  parameters, whose current date is passed as an argument).
- The in-memory services use local arrays as a storage stub; here that
  storage is threaded as an explicit state argument (a list of rows)
  and the new state is returned on success.
- Fallible operations return Except String with the source's named
  error strings.
- JavaScript truthiness is reproduced where the source relies on it:
  an optional string is truthy iff present and non-empty, an optional
  number is truthy iff present and non-zero, a Date is always truthy.
- The SQL builtin ISJSON is an external collaborator and is passed to
  the stored-procedure models as an explicit function argument.
- Array.prototype.sort is modelled as a stable comparator sort
  (insertion sort that keeps the earlier element on ties).
- Everything lives in namespace TodoSpec to avoid clashing with core
  names.
-/

namespace TodoSpec

/-- Milliseconds in one day. -/
def msPerDay : Int := 86400000

/-- Model of setHours(0,0,0,0): floor the timestamp to UTC midnight. -/
def startOfDay (t : Int) : Int := msPerDay * (t.fdiv msPerDay)

/-- Whitespace recognised by String.prototype.trim (restricted to the
common ASCII whitespace characters, which cover all inputs used here). -/
def isJsSpace (c : Char) : Bool :=
  c = ' ' || c = '\t' || c = '\n' || c = '\r' || c = '\x0b' || c = '\x0c'

/-- Model of String.prototype.trim, computed on the character list. -/
def jsTrim (s : String) : String :=
  String.mk (((s.data.dropWhile isJsSpace).reverse.dropWhile isJsSpace).reverse)

/-- Model of SQL RTRIM (spaces only). -/
def sqlRTrim (s : String) : String :=
  String.mk ((s.data.reverse.dropWhile (fun c => c = ' ')).reverse)

/-- Model of SQL LTRIM (spaces only). -/
def sqlLTrim (s : String) : String :=
  String.mk (s.data.dropWhile (fun c => c = ' '))

/-- Model of SQL LTRIM(RTRIM(.)). -/
def sqlTrim (s : String) : String := sqlLTrim (sqlRTrim s)

/-- Model of SQL LEN, which ignores trailing spaces. -/
def sqlLen (s : String) : Nat := (sqlRTrim s).length

/-- Model of the JavaScript expression (s || null) on an optional string:
an empty string is falsy and collapses to null. -/
def strOrNull : Option String → Option String
  | some s => if s = "" then none else some s
  | none => none

/-- Model of the JavaScript expression (n || null) on an optional number:
zero is falsy and collapses to null. -/
def intOrNull : Option Int → Option Int
  | some i => if i = 0 then none else some i
  | none => none

/-- Task row as stored by the in-memory engine (taskRules.ts). -/
structure Task where
  idTask : Nat
  idAccount : Nat
  idUser : Nat
  title : String
  description : Option String := none
  dueDate : Option Int := none
  priority : Int := 1
  status : Int := 1
  isDraft : Bool := false
  recurrenceType : Option String := none
  recurrenceInterval : Option Int := none
  recurrenceEndDate : Option Int := none
  dateCreated : Int := 0
  dateModified : Int := 0
  deleted : Bool := false
deriving DecidableEq, Repr

/-- Parameters of taskCreate (TaskCreateRequest). -/
structure TaskCreateRequest where
  idAccount : Nat
  idUser : Nat
  title : String
  description : Option String := none
  dueDate : Option Int := none
  priority : Option Int := none
  isDraft : Option Bool := none
  recurrenceType : Option String := none
  recurrenceInterval : Option Int := none
  recurrenceEndDate : Option Int := none
deriving DecidableEq, Repr

/-- Valid recurrence type names (taskRules.ts). -/
def validTypes : List String := ["daily", "weekly", "monthly", "yearly"]

/-- Recurrence validation block of taskCreate: returns the error name
raised, if any.  The block only runs when recurrenceType is truthy. -/
def recurrenceError (now : Int) (p : TaskCreateRequest) : Option String :=
  match p.recurrenceType with
  | none => none
  | some rt =>
    if rt = "" then none
    else if ¬ validTypes.contains rt then some "invalidRecurrenceType"
    else
      match p.recurrenceInterval with
      | none => some "invalidRecurrenceInterval"
      | some i =>
        if i = 0 ∨ i < 1 ∨ i > 365 then some "invalidRecurrenceInterval"
        else
          match p.recurrenceEndDate with
          | none => none
          | some e =>
            if startOfDay e ≤ startOfDay now then some "invalidRecurrenceEndDate"
            else none

/-- Model of taskCreate (taskRules.ts).  The storage array is threaded
explicitly; now is the current timestamp. -/
def taskCreate (now : Int) (st : List Task) (p : TaskCreateRequest) :
    Except String (List Task × Nat) :=
  if (jsTrim p.title).length = 0 then .error "titleRequired"
  else if (jsTrim p.title).length < 3 then .error "titleTooShort"
  else if p.title.length > 100 then .error "titleTooLong"
  else if (match p.description with
           | some d => decide (d.length > 1000)
           | none => false) then .error "descriptionTooLong"
  else if (match p.dueDate with
           | some d => decide (startOfDay d < startOfDay now)
           | none => false) then .error "dueDateInPast"
  else
    match recurrenceError now p with
    | some e => .error e
    | none =>
      let idTask := st.length + 1
      let status : Int := if p.isDraft = some true then 0 else 1
      let task : Task :=
        { idTask, idAccount := p.idAccount, idUser := p.idUser,
          title := jsTrim p.title,
          description := strOrNull p.description,
          dueDate := p.dueDate,
          priority := p.priority.getD 1,
          status,
          isDraft := p.isDraft.getD false,
          recurrenceType := strOrNull p.recurrenceType,
          recurrenceInterval := intOrNull p.recurrenceInterval,
          recurrenceEndDate := p.recurrenceEndDate,
          dateCreated := now, dateModified := now, deleted := false }
      .ok (st ++ [task], idTask)

/-- Parameters of taskList (TaskListRequest). -/
structure TaskListRequest where
  idAccount : Nat
  idUser : Nat
  status : Option Int := none
  isDraft : Option Bool := none
deriving DecidableEq, Repr

/-- Task summary produced by taskList (TaskListResponse). -/
structure TaskListItem where
  idTask : Nat
  title : String
  description : Option String
  dueDate : Option Int
  priority : Int
  status : Int
  isDraft : Bool
  isUrgent : Bool
  dateCreated : Int
deriving DecidableEq, Repr

/-- Urgent flag of taskList: dueDate is truthy, dueDate is at most
now + 24h, and status is neither 3 nor 4.  The source imposes no lower
bound on the due date. -/
def isUrgentOf (now : Int) (t : Task) : Bool :=
  match t.dueDate with
  | none => false
  | some d => decide (d ≤ now + msPerDay) && t.status != 3 && t.status != 4

/-- Sort comparator of taskList: drafts first, then priority descending,
then due date ascending when both due dates are present, then creation
timestamp descending. -/
def taskCmp (a b : TaskListItem) : Int :=
  if a.isDraft ≠ b.isDraft then (if b.isDraft then 1 else -1)
  else if a.priority ≠ b.priority then b.priority - a.priority
  else
    match a.dueDate, b.dueDate with
    | some da, some db =>
      if da - db ≠ 0 then da - db else b.dateCreated - a.dateCreated
    | _, _ => b.dateCreated - a.dateCreated

/-- Stable insertion of one element into an already sorted list: the new
element goes after existing elements that do not compare greater. -/
def insLe {α : Type} (cmp : α → α → Int) (a : α) : List α → List α
  | [] => [a]
  | b :: bs => if cmp a b < 0 then a :: b :: bs else b :: insLe cmp a bs

/-- Stable comparator sort (model of Array.prototype.sort). -/
def sortByCmp {α : Type} (cmp : α → α → Int) (l : List α) : List α :=
  l.foldl (fun acc a => insLe cmp a acc) []

/-- Model of taskList (taskRules.ts): filter by account, user and the
optional status / draft filters, map to summaries with the derived
urgent flag, then sort. -/
def taskList (now : Int) (st : List Task) (p : TaskListRequest) : List TaskListItem :=
  let f1 : List Task := st.filter (fun t =>
    t.idAccount == p.idAccount && t.idUser == p.idUser && !t.deleted)
  let f2 : List Task := match p.status with
    | some s => f1.filter (fun t => t.status == s)
    | none => f1
  let f3 : List Task := match p.isDraft with
    | some d => f2.filter (fun t => t.isDraft == d)
    | none => f2
  let result : List TaskListItem := f3.map (fun t =>
    { idTask := t.idTask, title := t.title, description := t.description,
      dueDate := t.dueDate, priority := t.priority, status := t.status,
      isDraft := t.isDraft, isUrgent := isUrgentOf now t,
      dateCreated := t.dateCreated : TaskListItem })
  sortByCmp taskCmp result

/-- Storage predicate used by taskGet / taskUpdate / taskDelete and by
the attachment rules: same task id, same account, not soft-deleted. -/
def taskMatch (idAccount idTask : Nat) (t : Task) : Bool :=
  t.idTask == idTask && t.idAccount == idAccount && t.deleted == false

/-- Attachment row (taskAttachmentRules.ts). -/
structure Attachment where
  idTaskAttachment : Nat
  idAccount : Nat
  idTask : Nat
  fileName : String
  fileSize : Int
  fileType : String
  storageUrl : String
  dateCreated : Int := 0
deriving DecidableEq, Repr

/-- Attachment summary returned by taskGet. -/
structure AttachmentItem where
  idTaskAttachment : Nat
  fileName : String
  fileSize : Int
  fileType : String
  storageUrl : String
  dateCreated : Int
deriving DecidableEq, Repr

/-- Task detail returned by taskGet (TaskDetailResponse). -/
structure TaskDetail where
  idTask : Nat
  idUser : Nat
  title : String
  description : Option String
  dueDate : Option Int
  priority : Int
  status : Int
  isDraft : Bool
  recurrenceType : Option String
  recurrenceInterval : Option Int
  recurrenceEndDate : Option Int
  dateCreated : Int
  dateModified : Int
  attachments : List AttachmentItem
deriving DecidableEq, Repr

/-- Model of taskGet (taskRules.ts). -/
def taskGet (st : List Task) (atts : List Attachment) (idAccount idTask : Nat) :
    Except String TaskDetail :=
  match st.find? (taskMatch idAccount idTask) with
  | none => .error "taskNotFound"
  | some t =>
    .ok { idTask := t.idTask, idUser := t.idUser, title := t.title,
          description := t.description, dueDate := t.dueDate,
          priority := t.priority, status := t.status, isDraft := t.isDraft,
          recurrenceType := t.recurrenceType,
          recurrenceInterval := t.recurrenceInterval,
          recurrenceEndDate := t.recurrenceEndDate,
          dateCreated := t.dateCreated, dateModified := t.dateModified,
          attachments :=
            (atts.filter (fun a => a.idTask == idTask && a.idAccount == idAccount)).map
              (fun a =>
                { idTaskAttachment := a.idTaskAttachment, fileName := a.fileName,
                  fileSize := a.fileSize, fileType := a.fileType,
                  storageUrl := a.storageUrl, dateCreated := a.dateCreated }) }

/-- Parameters of taskUpdate (TaskUpdateRequest). -/
structure TaskUpdateRequest where
  idAccount : Nat
  idTask : Nat
  title : Option String := none
  description : Option String := none
  dueDate : Option Int := none
  priority : Option Int := none
  status : Option Int := none
  isDraft : Option Bool := none
deriving DecidableEq, Repr

/-- Field assignments of taskUpdate applied to the found task, including
the draft-to-active conversion rule: when the stored task was a draft
and isDraft is supplied as false, status is set to 1, and a supplied
explicit status is NOT applied in that case (the guard on the status
assignment excludes the draft-exit update). -/
def updateFields (now : Int) (p : TaskUpdateRequest) (t : Task) : Task :=
  let wasDraft := t.isDraft
  let t1 := match p.title with | some s => { t with title := jsTrim s } | none => t
  let t2 := match p.description with | some d => { t1 with description := some d } | none => t1
  let t3 := match p.dueDate with | some d => { t2 with dueDate := some d } | none => t2
  let t4 := match p.priority with | some pr => { t3 with priority := pr } | none => t3
  let t5 := match p.isDraft with
    | some b =>
      let u := { t4 with isDraft := b }
      if wasDraft ∧ ¬ (b = true) then { u with status := 1 } else u
    | none => t4
  let t6 := match p.status with
    | some s => if ¬ (wasDraft ∧ p.isDraft = some false) then { t5 with status := s } else t5
    | none => t5
  { t6 with dateModified := now }

/-- Replace the first element matching the predicate (model of mutating
the element found by findIndex). -/
def replaceFirst (pred : Task → Bool) (f : Task → Task) : List Task → List Task
  | [] => []
  | t :: ts => if pred t then f t :: ts else t :: replaceFirst pred f ts

/-- Model of taskUpdate (taskRules.ts). -/
def taskUpdate (now : Int) (st : List Task) (p : TaskUpdateRequest) :
    Except String (List Task) :=
  if ¬ st.any (taskMatch p.idAccount p.idTask) then .error "taskNotFound"
  else if (match p.title with
           | some s => decide ((jsTrim s).length < 3)
           | none => false) then .error "titleTooShort"
  else if (match p.title with
           | some s => decide (s.length > 100)
           | none => false) then .error "titleTooLong"
  else if (match p.description with
           | some d => decide (d ≠ "" ∧ d.length > 1000)
           | none => false) then .error "descriptionTooLong"
  else if (match p.dueDate with
           | some d => decide (startOfDay d < startOfDay now)
           | none => false) then .error "dueDateInPast"
  else
    .ok (replaceFirst (taskMatch p.idAccount p.idTask) (updateFields now p) st)

/-- Model of taskDelete (taskRules.ts): soft delete the found task. -/
def taskDelete (now : Int) (st : List Task) (idAccount idTask : Nat) :
    Except String (List Task) :=
  if ¬ st.any (taskMatch idAccount idTask) then .error "taskNotFound"
  else
    .ok (replaceFirst (taskMatch idAccount idTask)
      (fun t => { t with deleted := true, dateModified := now }) st)

/-- Parameters of taskAttachmentCreate. -/
structure AttachmentCreateRequest where
  idAccount : Nat
  idTask : Nat
  fileName : String
  fileSize : Int
  fileType : String
deriving DecidableEq, Repr

/-- Allowed file formats (taskAttachmentRules.ts). -/
def validFormats : List String := ["pdf", "doc", "docx", "jpg", "png"]

/-- Number of stored attachments of one task under one account. -/
def attCount (atts : List Attachment) (idAccount idTask : Nat) : Nat :=
  (atts.filter (fun a => a.idTask == idTask && a.idAccount == idAccount)).length

/-- Model of taskAttachmentCreate (taskAttachmentRules.ts): existence
check, file format, file size, then the ceiling of 5 attachments. -/
def taskAttachmentCreate (now : Int) (tasks : List Task) (atts : List Attachment)
    (p : AttachmentCreateRequest) : Except String (List Attachment × Nat) :=
  if ¬ tasks.any (taskMatch p.idAccount p.idTask) then .error "taskNotFound"
  else if ¬ validFormats.contains p.fileType then .error "invalidFileFormat"
  else if p.fileSize ≤ 0 ∨ p.fileSize > 5242880 then .error "fileTooLarge"
  else if 5 ≤ attCount atts p.idAccount p.idTask then .error "tooManyAttachments"
  else
    let idTaskAttachment := atts.length + 1
    let storageUrl :=
      "https://storage.example.com/tasks/" ++ toString p.idTask ++ "/" ++
        toString idTaskAttachment ++ "/" ++ p.fileName
    let att : Attachment :=
      { idTaskAttachment := idTaskAttachment, idAccount := p.idAccount,
        idTask := p.idTask, fileName := p.fileName, fileSize := p.fileSize,
        fileType := p.fileType, storageUrl := storageUrl, dateCreated := now }
    .ok (atts ++ [att], idTaskAttachment)

/-- Task row of the functional.task table (tables.sql): the SQL layer
stores isRecurring plus an opaque recurrenceConfig JSON string instead
of the three recurrence columns of the in-memory stub. -/
structure SqlTask where
  idTask : Nat
  idAccount : Nat
  idUser : Nat
  title : String
  description : Option String := none
  dueDate : Option Int := none
  priority : Int := 1
  status : Int := 1
  isRecurring : Bool := false
  recurrenceConfig : Option String := none
  isDraft : Bool := false
  dateCreated : Int := 0
  dateModified : Int := 0
  deleted : Bool := false
deriving DecidableEq, Repr

/-- Subtask row of the functional.subtask table. -/
structure Subtask where
  idSubtask : Nat
  idAccount : Nat
  idTask : Nat
  title : String
  description : Option String := none
  status : Int := 0
  orderIndex : Int := 0
  dateCreated : Int := 0
  dateModified : Int := 0
  deleted : Bool := false
deriving DecidableEq, Repr

/-- Existence predicate shared by the stored procedures: a row with the
given task id and account id that is not soft-deleted. -/
def sqlTaskMatch (idAccount idTask : Nat) (t : SqlTask) : Bool :=
  t.idTask == idTask && t.idAccount == idAccount && !t.deleted

/-- Parameters of spTaskCreate.  A priority of none models an omitted
parameter, which takes the declared default 1. -/
structure SpTaskCreateParams where
  idAccount : Nat
  idUser : Nat
  title : String
  description : Option String := none
  dueDate : Option Int := none
  priority : Option Int := none
  recurrenceConfig : Option String := none
  isDraft : Bool := false
deriving DecidableEq, Repr

/-- Model of spTaskCreate.sql.  isjson is the external ISJSON builtin;
today is CAST(GETUTCDATE() AS DATE) and now is GETUTCDATE(); the
identity column is modelled as row count + 1. -/
def spTaskCreate (isjson : String → Bool) (today now : Int)
    (tasks : List SqlTask) (p : SpTaskCreateParams) :
    Except String (List SqlTask × Nat) :=
  let priority := p.priority.getD 1
  if sqlTrim p.title = "" then .error "titleRequired"
  else if (sqlTrim p.title).length < 3 then .error "titleTooShort"
  else if sqlLen p.title > 100 then .error "titleTooLong"
  else if (match p.description with
           | some d => decide (sqlLen d > 1000)
           | none => false) then .error "descriptionTooLong"
  else if (match p.dueDate with
           | some d => decide (d < today)
           | none => false) then .error "dueDateInPast"
  else if ¬ (0 ≤ priority ∧ priority ≤ 2) then .error "invalidPriority"
  else
    let status : Int := if p.isDraft then 0 else 1
    let isRecurring : Bool := match p.recurrenceConfig with
      | some c => c ≠ ""
      | none => false
    if (match p.recurrenceConfig with
        | some c => c != "" && !(isjson c)
        | none => false) then .error "invalidRecurrenceConfig"
    else
      let idTask := tasks.length + 1
      let row : SqlTask :=
        { idTask := idTask, idAccount := p.idAccount, idUser := p.idUser,
          title := p.title, description := p.description, dueDate := p.dueDate,
          priority := priority, status := status, isRecurring := isRecurring,
          recurrenceConfig := p.recurrenceConfig, isDraft := p.isDraft,
          dateCreated := now, dateModified := now, deleted := false }
      .ok (tasks ++ [row], idTask)

/-- Model of spTaskGet.sql (task result set only): the existence check,
then the matching non-deleted rows. -/
def spTaskGet (tasks : List SqlTask) (idAccount idTask : Nat) :
    Except String (List SqlTask) :=
  if ¬ tasks.any (sqlTaskMatch idAccount idTask) then .error "taskNotFound"
  else .ok (tasks.filter (sqlTaskMatch idAccount idTask))

/-- Parameters of spTaskUpdate; none models an omitted (NULL) value. -/
structure SpTaskUpdateParams where
  idAccount : Nat
  idTask : Nat
  title : Option String := none
  description : Option String := none
  dueDate : Option Int := none
  priority : Option Int := none
  status : Option Int := none
  recurrenceConfig : Option String := none
  isDraft : Option Bool := none
deriving DecidableEq, Repr

/-- Model of spTaskUpdate.sql.  The local variables @isRecurring,
@recurrenceConfig and @status are resolved exactly as the procedure
does: an empty recurrenceConfig sets @isRecurring to 0 and nulls out
the variable (so the CASE WHEN in the UPDATE keeps the stored column
value); a draft-exit update (isDraft supplied as 0 on a stored draft)
defaults @status to 1 only when no explicit status was supplied. -/
def spTaskUpdate (isjson : String → Bool) (today now : Int)
    (tasks : List SqlTask) (p : SpTaskUpdateParams) :
    Except String (List SqlTask) :=
  if ¬ tasks.any (sqlTaskMatch p.idAccount p.idTask) then .error "taskNotFound"
  else if (match p.title with
           | some s => decide ((sqlTrim s).length < 3)
           | none => false) then .error "titleTooShort"
  else if (match p.title with
           | some s => decide (sqlLen s > 100)
           | none => false) then .error "titleTooLong"
  else if (match p.description with
           | some d => decide (sqlLen d > 1000)
           | none => false) then .error "descriptionTooLong"
  else if (match p.dueDate with
           | some d => decide (d < today)
           | none => false) then .error "dueDateInPast"
  else if (match p.priority with
           | some pr => decide (¬ (0 ≤ pr ∧ pr ≤ 2))
           | none => false) then .error "invalidPriority"
  else if (match p.status with
           | some s => decide (¬ (0 ≤ s ∧ s ≤ 4))
           | none => false) then .error "invalidStatus"
  else if (match p.recurrenceConfig with
           | some c => c != "" && !(isjson c)
           | none => false) then .error "invalidRecurrenceConfig"
  else
    let isRecurringVar : Option Bool := match p.recurrenceConfig with
      | some c => if c = "" then some false else some true
      | none => none
    let cfgVar : Option String := match p.recurrenceConfig with
      | some c => if c = "" then none else some c
      | none => none
    let statusVar : Option Int :=
      if p.isDraft = some false ∧
          tasks.any (fun t => t.idTask == p.idTask && t.idAccount == p.idAccount && t.isDraft) then
        (match p.status with
         | none => some 1
         | some s => some s)
      else p.status
    .ok (tasks.map (fun t =>
      if t.idTask == p.idTask && t.idAccount == p.idAccount then
        { t with
          title := p.title.getD t.title,
          description := match p.description with
            | some d => some d
            | none => t.description,
          dueDate := match p.dueDate with
            | some d => some d
            | none => t.dueDate,
          priority := p.priority.getD t.priority,
          status := statusVar.getD t.status,
          isRecurring := isRecurringVar.getD t.isRecurring,
          recurrenceConfig := match cfgVar with
            | some c => some c
            | none => t.recurrenceConfig,
          isDraft := p.isDraft.getD t.isDraft,
          dateModified := now }
      else t))

/-- Model of spTaskDelete.sql: existence check, then soft delete the
task rows and every non-deleted subtask row of that task. -/
def spTaskDelete (now : Int) (tasks : List SqlTask) (subs : List Subtask)
    (idAccount idTask : Nat) :
    Except String (List SqlTask × List Subtask) :=
  if ¬ tasks.any (sqlTaskMatch idAccount idTask) then .error "taskNotFound"
  else
    .ok
      (tasks.map (fun t =>
        if t.idTask == idTask && t.idAccount == idAccount then
          { t with deleted := true, dateModified := now }
        else t),
       subs.map (fun s =>
        if s.idTask == idTask && s.idAccount == idAccount && !s.deleted then
          { s with deleted := true, dateModified := now }
        else s))

deriving instance DecidableEq for Except

/-! Concrete data used in the evaluations below. -/

/-- Stored draft task (status Draft, isDraft set). -/
def draftTask : Task :=
  { idTask := 1, idAccount := 1, idUser := 1, title := "Draft task",
    isDraft := true, status := 0 }

/-- Stored draft task row in the SQL layer. -/
def sqlDraftTask : SqlTask :=
  { idTask := 1, idAccount := 1, idUser := 1, title := "Draft task",
    isDraft := true, status := 0 }

/-- Evaluation instant for the urgent-flag example: noon of day 10. -/
def c2Now : Int := 10 * 86400000 + 43200000

/-- Pending task whose due date (start of day 9) lies strictly before
the current day. -/
def overdueTask : Task :=
  { idTask := 1, idAccount := 1, idUser := 1, title := "Overdue task",
    dueDate := some (9 * 86400000), status := 1, dateCreated := 5 }

/-- List item produced for overdueTask by taskList at c2Now. -/
def c2Item : TaskListItem :=
  { idTask := 1, title := "Overdue task", description := none,
    dueDate := some (9 * 86400000), priority := 1, status := 1,
    isDraft := false, isUrgent := true, dateCreated := 5 }

/-- Task A of the ordering example: draft, priority 2, due tomorrow. -/
def taskA : Task :=
  { idTask := 1, idAccount := 1, idUser := 1, title := "Task A",
    isDraft := true, status := 0, priority := 2,
    dueDate := some (11 * 86400000), dateCreated := 1 }

/-- Task B of the ordering example: active, priority 2, due today. -/
def taskB : Task :=
  { idTask := 2, idAccount := 1, idUser := 1, title := "Task B",
    priority := 2, dueDate := some (10 * 86400000), dateCreated := 2 }

/-- Task C of the ordering example: active, priority 1, due today. -/
def taskC : Task :=
  { idTask := 3, idAccount := 1, idUser := 1, title := "Task C",
    priority := 1, dueDate := some (10 * 86400000), dateCreated := 3 }

/-- Task with a due date, created at 5. -/
def dueTask : Task :=
  { idTask := 1, idAccount := 1, idUser := 1, title := "Task with due",
    priority := 1, dueDate := some (11 * 86400000), dateCreated := 5 }

/-- Task with no due date, created later (at 20) than dueTask. -/
def nullDueLate : Task :=
  { idTask := 2, idAccount := 1, idUser := 1, title := "Task no due",
    priority := 1, dueDate := none, dateCreated := 20 }

/-- Task with no due date, created earlier (at 2) than dueTask. -/
def nullDueEarly : Task :=
  { idTask := 2, idAccount := 1, idUser := 1, title := "Task no due",
    priority := 1, dueDate := none, dateCreated := 2 }

/-- Active task with due date 10, created at 1 (null-due-gap example). -/
def gTaskA : Task :=
  { idTask := 1, idAccount := 1, idUser := 1, title := "Gap task A",
    priority := 1, dueDate := some 10, dateCreated := 1 }

/-- Active task with no due date, created at 15 (null-due-gap example). -/
def gTaskB : Task :=
  { idTask := 2, idAccount := 1, idUser := 1, title := "Gap task B",
    priority := 1, dueDate := none, dateCreated := 15 }

/-- Active task with due date 20, created at 30 (null-due-gap example). -/
def gTaskC : Task :=
  { idTask := 3, idAccount := 1, idUser := 1, title := "Gap task C",
    priority := 1, dueDate := some 20, dateCreated := 30 }

/-- Title whose trimmed length is 3 but whose raw length is 101. -/
def longSpacedTitle : String := "abc" ++ String.mk (List.replicate 98 ' ')

/-- Stored SQL row for the soft-delete example. -/
def c4SqlTask : SqlTask :=
  { idTask := 1, idAccount := 1, idUser := 1, title := "Parent task" }

/-- Non-deleted subtask of c4SqlTask. -/
def c4Subtask : Subtask :=
  { idSubtask := 1, idAccount := 1, idTask := 1, title := "Child subtask" }

/-- Stored in-memory row for the soft-delete example. -/
def c4Task : Task :=
  { idTask := 1, idAccount := 1, idUser := 1, title := "Parent task" }

/-- c4SqlTask after the soft delete at time 1. -/
def c4SqlTaskDel : SqlTask := { c4SqlTask with deleted := true, dateModified := 1 }

/-- c4Subtask after the cascaded soft delete at time 1. -/
def c4SubtaskDel : Subtask := { c4Subtask with deleted := true, dateModified := 1 }

/-- c4Task after the soft delete at time 1. -/
def c4TaskDel : Task := { c4Task with deleted := true, dateModified := 1 }

/-- Attachment number i of task 1 under account 1. -/
def mkAtt (i : Nat) : Attachment :=
  { idTaskAttachment := i, idAccount := 1, idTask := 1, fileName := "file.pdf",
    fileSize := 100, fileType := "pdf", storageUrl := "url" }

/-- Five stored attachments of task 1 under account 1. -/
def fiveAtts : List Attachment := [mkAtt 1, mkAtt 2, mkAtt 3, mkAtt 4, mkAtt 5]

/-- Four stored attachments of task 1 under account 1. -/
def fourAtts : List Attachment := [mkAtt 1, mkAtt 2, mkAtt 3, mkAtt 4]

/-- Attachment-create request for task 1 under account 1. -/
def c6Req : AttachmentCreateRequest :=
  { idAccount := 1, idTask := 1, fileName := "new.pdf", fileSize := 100,
    fileType := "pdf" }

/-- Task stored under account 1, used for the isolation example. -/
def c7Task : Task :=
  { idTask := 7, idAccount := 1, idUser := 1, title := "Account 1 task" }

/-- SQL task row stored under account 1. -/
def c7SqlTask : SqlTask :=
  { idTask := 7, idAccount := 1, idUser := 1, title := "Account 1 task" }

/-- Recurrence descriptor create call of the SQL layer. -/
def c8CreateParams : SpTaskCreateParams :=
  { idAccount := 1, idUser := 1, title := "Recurring task",
    recurrenceConfig := some "cfg" }

/-- Row produced by spTaskCreate for c8CreateParams at time 7. -/
def c8Row : SqlTask :=
  { idTask := 1, idAccount := 1, idUser := 1, title := "Recurring task",
    isRecurring := true, recurrenceConfig := some "cfg",
    dateCreated := 7, dateModified := 7 }

/-- Row after the empty-descriptor update of c8Row at time 9: the
recurring flag is cleared but the stored config is retained. -/
def c8RowCleared : SqlTask :=
  { idTask := 1, idAccount := 1, idUser := 1, title := "Recurring task",
    isRecurring := false, recurrenceConfig := some "cfg",
    dateCreated := 7, dateModified := 9 }

/-- Recurrence descriptor create call of the in-memory engine. -/
def c8TsParams : TaskCreateRequest :=
  { idAccount := 1, idUser := 1, title := "Weekly task",
    recurrenceType := some "weekly", recurrenceInterval := some 2,
    recurrenceEndDate := some (20 * 86400000) }

/-- Row produced by taskCreate for c8TsParams at start of day 10. -/
def c8TsRow : Task :=
  { idTask := 1, idAccount := 1, idUser := 1, title := "Weekly task",
    recurrenceType := some "weekly", recurrenceInterval := some 2,
    recurrenceEndDate := some (20 * 86400000),
    dateCreated := 10 * 86400000, dateModified := 10 * 86400000 }

/-- Update request with a too-short title against a missing task. -/
def c10Update : TaskUpdateRequest :=
  { idAccount := 1, idTask := 42, title := some "ab" }

/-- Attachment request with a disallowed file type against a missing task. -/
def c10Att : AttachmentCreateRequest :=
  { idAccount := 1, idTask := 42, fileName := "x.exe", fileSize := 10,
    fileType := "exe" }

/-! Helper lemmas. -/

/-- Membership is preserved by stable insertion. -/
theorem mem_insLe {α : Type} (cmp : α → α → Int) (a x : α) (l : List α) :
    x ∈ insLe cmp a l ↔ x = a ∨ x ∈ l := by
  induction l with
  | nil => simp [insLe]
  | cons b bs ih =>
    by_cases h : cmp a b < 0
    · simp only [insLe, if_pos h, List.mem_cons]
    · simp only [insLe, if_neg h, List.mem_cons, ih]
      tauto

/-- Membership through the sorting fold. -/
theorem mem_sortFold {α : Type} (cmp : α → α → Int) (l acc : List α) (x : α) :
    x ∈ List.foldl (fun acc a => insLe cmp a acc) acc l ↔ x ∈ acc ∨ x ∈ l := by
  induction l generalizing acc with
  | nil => simp
  | cons a as ih =>
    simp only [List.foldl_cons, ih, mem_insLe, List.mem_cons]
    tauto

/-- The comparator sort permutes its input as far as membership goes. -/
theorem mem_sortByCmp {α : Type} (cmp : α → α → Int) (l : List α) (x : α) :
    x ∈ sortByCmp cmp l ↔ x ∈ l := by
  simp [sortByCmp, mem_sortFold]

/-- Every error produced by the recurrence block is one of the three
recurrence error names. -/
theorem recurrenceError_cases (now : Int) (p : TaskCreateRequest) (e : String)
    (h : recurrenceError now p = some e) :
    e = "invalidRecurrenceType" ∨ e = "invalidRecurrenceInterval" ∨
      e = "invalidRecurrenceEndDate" := by
  unfold recurrenceError at h
  repeat' split at h
  all_goals simp_all

/-- After replacing the first match of a predicate by a non-matching
value, a list with at most one match has no match left. -/
theorem replaceFirst_pred_false (pred : Task → Bool) (f : Task → Task)
    (hf : ∀ x, pred x = true → pred (f x) = false) :
    ∀ (l : List Task), (l.filter pred).length ≤ 1 →
      ∀ x ∈ replaceFirst pred f l, pred x = false := by
  intro l
  induction l with
  | nil => intro _ x hx; simp [replaceFirst] at hx
  | cons t ts ih =>
    intro h x hx
    cases hpt : pred t with
    | true =>
      rw [List.filter_cons_of_pos hpt] at h
      simp only [List.length_cons] at h
      have hempty : ts.filter pred = [] := by
        have : (ts.filter pred).length = 0 := by omega
        exact List.length_eq_zero.mp this
      simp only [replaceFirst, if_pos hpt, List.mem_cons] at hx
      rcases hx with rfl | hx
      · exact hf t hpt
      · have := List.filter_eq_nil_iff.mp hempty x hx
        simpa using this
    | false =>
      simp only [replaceFirst, if_neg (by simp [hpt] : ¬ pred t = true),
        List.mem_cons] at hx
      rcases hx with rfl | hx
      · exact hpt
      · exact ih (by rwa [List.filter_cons_of_neg (by simp [hpt])] at h) x hx

/-- Count of matching attachments after appending one attachment. -/
theorem attCount_append (atts : List Attachment) (x : Attachment) (a t : Nat) :
    attCount (atts ++ [x]) a t =
      attCount atts a t + (if x.idTask == t && x.idAccount == a then 1 else 0) := by
  simp only [attCount, List.filter_append]
  by_cases h : (x.idTask == t && x.idAccount == a) = true
  · simp [h]
  · simp [h]

/-- Swapping the comparator's arguments negates its value. -/
theorem taskCmp_neg (a b : TaskListItem) : taskCmp b a = - taskCmp a b := by
  unfold taskCmp
  cases hda : a.isDraft <;> cases hdb : b.isDraft <;>
    rcases ha : a.dueDate with _ | da <;> rcases hb : b.dueDate with _ | db <;>
      simp only [ha, hb, hda, hdb] <;>
      split_ifs <;> first
      | omega
      | simp_all

/-- Stable insertion preserves adjacent comparator order when the
comparator is antisymmetric. -/
theorem chain_insLe {α : Type} (cmp : α → α → Int)
    (hanti : ∀ x y, cmp y x = - cmp x y) (a : α) :
    ∀ (l : List α), List.Chain' (fun x y => cmp x y ≤ 0) l →
      List.Chain' (fun x y => cmp x y ≤ 0) (insLe cmp a l) := by
  intro l
  induction l with
  | nil => intro _; simp [insLe]
  | cons b bs ih =>
    intro h
    simp only [insLe]
    by_cases hc : cmp a b < 0
    · rw [if_pos hc, List.chain'_cons]
      exact ⟨by omega, h⟩
    · rw [if_neg hc]
      have hba : cmp b a ≤ 0 := by have := hanti a b; omega
      rw [List.chain'_cons']
      refine ⟨?_, ih h.tail⟩
      intro y hy
      cases bs with
      | nil =>
        simp [insLe] at hy
        subst hy
        exact hba
      | cons c cs =>
        simp only [insLe] at hy
        by_cases hc2 : cmp a c < 0
        · rw [if_pos hc2] at hy
          simp at hy
          subst hy
          exact hba
        · rw [if_neg hc2] at hy
          simp at hy
          subst hy
          exact (List.chain'_cons.mp h).1

/-- The sorting fold keeps adjacent comparator order. -/
theorem chain_sortFold {α : Type} (cmp : α → α → Int)
    (hanti : ∀ x y, cmp y x = - cmp x y) :
    ∀ (l acc : List α), List.Chain' (fun x y => cmp x y ≤ 0) acc →
      List.Chain' (fun x y => cmp x y ≤ 0)
        (List.foldl (fun acc a => insLe cmp a acc) acc l) := by
  intro l
  induction l with
  | nil => intro acc h; simpa using h
  | cons a as ih =>
    intro acc h
    simp only [List.foldl_cons]
    exact ih _ (chain_insLe cmp hanti a acc h)

/-- The comparator sort produces adjacent comparator order. -/
theorem chain_sortByCmp {α : Type} (cmp : α → α → Int)
    (hanti : ∀ x y, cmp y x = - cmp x y) (l : List α) :
    List.Chain' (fun x y => cmp x y ≤ 0) (sortByCmp cmp l) :=
  chain_sortFold cmp hanti l [] (by simp)

/-- Field-level reading of a non-positive comparator value: the earlier
item is a draft and the later is not, or equal draft flags and strictly
higher priority first, or equal draft flags and priority and the
due-date / creation-timestamp clause (due date ascending with creation
descending on ties when both due dates are present, creation descending
alone otherwise). -/
theorem taskCmp_le_iff (a b : TaskListItem) :
    taskCmp a b ≤ 0 ↔
      ((a.isDraft = true ∧ b.isDraft = false) ∨
       (a.isDraft = b.isDraft ∧ b.priority < a.priority) ∨
       (a.isDraft = b.isDraft ∧ a.priority = b.priority ∧
         (match a.dueDate, b.dueDate with
          | some da, some db =>
            if da = db then b.dateCreated ≤ a.dateCreated else da < db
          | _, _ => b.dateCreated ≤ a.dateCreated))) := by
  unfold taskCmp
  cases hda : a.isDraft <;> cases hdb : b.isDraft <;>
    rcases ha : a.dueDate with _ | da <;> rcases hb : b.dueDate with _ | db <;>
      by_cases hp : a.priority = b.priority <;>
        simp only [ha, hb, hda, hdb, hp, ne_eq, not_false_eq_true, not_true_eq_false,
          if_true, if_false, ite_true, ite_false] <;>
        simp [hp] <;> first
        | omega
        | (split_ifs <;> omega)

/-! Claim theorems. -/

/-- Claim C1: updating a stored draft with isDraft=false must force
status Pending(1) when no status is supplied, and must store the
supplied explicit status otherwise.  The in-memory engine violates the
second half: at the concrete input (stored draft, isDraft=false,
status=3) taskUpdate stores status 1, while spTaskUpdate stores the
explicit 3; both store 1 when no status is supplied. -/
theorem claim_C1_draft_exit_status :
    (taskUpdate 99 [draftTask]
        { idAccount := 1, idTask := 1, isDraft := some false, status := some 3 }).map
        (fun l => l.map (fun t => (t.status, t.isDraft))) = .ok [(1, false)] ∧
    (taskUpdate 99 [draftTask]
        { idAccount := 1, idTask := 1, isDraft := some false }).map
        (fun l => l.map (fun t => (t.status, t.isDraft))) = .ok [(1, false)] ∧
    (spTaskUpdate (fun _ => true) 0 99 [sqlDraftTask]
        { idAccount := 1, idTask := 1, isDraft := some false, status := some 3 }).map
        (fun l => l.map (fun t => (t.status, t.isDraft))) = .ok [(3, false)] ∧
    (spTaskUpdate (fun _ => true) 0 99 [sqlDraftTask]
        { idAccount := 1, idTask := 1, isDraft := some false }).map
        (fun l => l.map (fun t => (t.status, t.isDraft))) = .ok [(1, false)] := by
  decide

/-- Claim C2 counterexample: a Pending task whose due date is strictly
before the current day is still produced with isUrgent = true, so the
flag is not restricted to the window starting at today. -/
theorem claim_C2_counterexample :
    (taskList c2Now [overdueTask] { idAccount := 1, idUser := 1 }).map
      (fun i => i.isUrgent) = [true] ∧
    overdueTask.status = 1 ∧
    overdueTask.dueDate = some (9 * 86400000) ∧
    startOfDay (9 * 86400000) < startOfDay c2Now := by
  decide

/-- Claim C2 (amended): for every task in the list output, the derived
urgent flag is true iff the due date is set, is at most now + 24h (no
lower bound: overdue tasks are also flagged) and the status is neither
Completed(3) nor Cancelled(4). -/
theorem claim_C2_urgent_flag (now : Int) (st : List Task) (p : TaskListRequest)
    (item : TaskListItem) (h : item ∈ taskList now st p) :
    item.isUrgent =
      (match item.dueDate with
       | none => false
       | some d => decide (d ≤ now + msPerDay) && item.status != 3 && item.status != 4) := by
  simp only [taskList, mem_sortByCmp, List.mem_map] at h
  obtain ⟨t, ht, rfl⟩ := h
  rfl

/-- Claim C2 witness: the amended statement evaluated at the overdue
Pending task. -/
theorem claim_C2_witness :
    c2Item ∈ taskList c2Now [overdueTask] { idAccount := 1, idUser := 1 } ∧
    c2Item.isUrgent =
      (match c2Item.dueDate with
       | none => false
       | some d => decide (d ≤ c2Now + msPerDay) && c2Item.status != 3 && c2Item.status != 4) :=
  ⟨by decide,
   claim_C2_urgent_flag c2Now [overdueTask] { idAccount := 1, idUser := 1 } c2Item (by decide)⟩

/-- Claim C3 counterexample: two active tasks of equal priority, one
with a due date (created at 5), one with a null due date (created at
20).  The null-due task is produced first, so a null due date does not
sort after a due date at equal draft flag and priority. -/
theorem claim_C3_counterexample :
    (taskList (10 * 86400000) [dueTask, nullDueLate]
        { idAccount := 1, idUser := 1 }).map (fun i => i.idTask) = [2, 1] ∧
    dueTask.isDraft = nullDueLate.isDraft ∧
    dueTask.priority = nullDueLate.priority ∧
    dueTask.dueDate = some (11 * 86400000) ∧
    nullDueLate.dueDate = none := by
  decide

/-- Claim C3 (amended): for every input, the output of the list
operation is globally ordered drafts before non-drafts and by
non-increasing priority within each draft class (conjunct 3), and every
pair of consecutive output items is ordered by the comparator
(conjunct 2), whose non-positive values read at the field level as:
the earlier item is a draft and the later is not, or equal draft flags
and strictly higher priority first, or equal draft flags and priority
and then ascending due date with descending creation timestamp on ties
when both due dates are present, and descending creation timestamp
alone when either due date is null (conjunct 1).  A null due date is
not sorted last, and due-date order is only adjacent, not global: in
the concrete evaluations the null-due task is placed by creation
timestamp (sorting first when created last), and across a null-due gap
a later due date precedes an earlier one (the A(due 10, created 1),
B(no due, created 15), C(due 20, created 30) state lists as C, B, A).
The spec's example A(draft,prio2,due tomorrow), B(active,prio2,due
today), C(active,prio1,due today) still produces A, B, C. -/
theorem claim_C3_sort_order :
    (∀ a b : TaskListItem, taskCmp a b ≤ 0 ↔
      ((a.isDraft = true ∧ b.isDraft = false) ∨
       (a.isDraft = b.isDraft ∧ b.priority < a.priority) ∨
       (a.isDraft = b.isDraft ∧ a.priority = b.priority ∧
         (match a.dueDate, b.dueDate with
          | some da, some db =>
            if da = db then b.dateCreated ≤ a.dateCreated else da < db
          | _, _ => b.dateCreated ≤ a.dateCreated)))) ∧
    (∀ (now : Int) (st : List Task) (p : TaskListRequest),
      List.Chain' (fun x y => taskCmp x y ≤ 0) (taskList now st p)) ∧
    (∀ (now : Int) (st : List Task) (p : TaskListRequest),
      List.Pairwise (fun x y : TaskListItem =>
        (x.isDraft = true ∧ y.isDraft = false) ∨
        (x.isDraft = y.isDraft ∧ y.priority ≤ x.priority)) (taskList now st p)) ∧
    (taskList (10 * 86400000) [taskB, taskC, taskA]
        { idAccount := 1, idUser := 1 }).map (fun i => i.idTask) = [1, 2, 3] ∧
    (taskList (10 * 86400000) [dueTask, nullDueEarly]
        { idAccount := 1, idUser := 1 }).map (fun i => i.idTask) = [1, 2] ∧
    (taskList (10 * 86400000) [dueTask, nullDueLate]
        { idAccount := 1, idUser := 1 }).map (fun i => i.idTask) = [2, 1] ∧
    (taskList 0 [gTaskA, gTaskB, gTaskC]
        { idAccount := 1, idUser := 1 }).map (fun i => i.idTask) = [3, 2, 1] := by
  have hchain : ∀ (now : Int) (st : List Task) (p : TaskListRequest),
      List.Chain' (fun x y => taskCmp x y ≤ 0) (taskList now st p) := by
    intro now st p
    exact chain_sortByCmp taskCmp taskCmp_neg _
  refine ⟨taskCmp_le_iff, hchain, ?_, by decide, by decide, by decide, by decide⟩
  intro now st p
  haveI : IsTrans TaskListItem (fun x y : TaskListItem =>
      (x.isDraft = true ∧ y.isDraft = false) ∨
      (x.isDraft = y.isDraft ∧ y.priority ≤ x.priority)) := by
    constructor
    intro x y z hxy hyz
    rcases hxy with ⟨hx1, hx2⟩ | ⟨he1, hp1⟩ <;>
      rcases hyz with ⟨hy1, hy2⟩ | ⟨he2, hp2⟩
    · simp_all
    · exact Or.inl ⟨hx1, he2.symm.trans hx2⟩
    · exact Or.inl ⟨he1.trans hy1, hy2⟩
    · exact Or.inr ⟨he1.trans he2, le_trans hp2 hp1⟩
  refine List.chain'_iff_pairwise.mp ((hchain now st p).imp ?_)
  intro x y hxy
  rcases (taskCmp_le_iff x y).mp hxy with ⟨h1, h2⟩ | ⟨h1, h2⟩ | ⟨h1, h2, _⟩
  · exact Or.inl ⟨h1, h2⟩
  · exact Or.inr ⟨h1, le_of_lt h2⟩
  · exact Or.inr ⟨h1, le_of_eq h2.symm⟩

/-- Claim C8: the recurrence round-trip holds on create+get (the config
string is stored verbatim with isRecurring=1 and returned by the get),
and the in-memory engine round-trips the three descriptor fields; but
an empty recurrence descriptor on update clears only isRecurring: the
procedure nulls its local config variable, so the CASE WHEN in the
UPDATE keeps the previously stored recurrenceConfig instead of clearing
it. -/
theorem claim_C8_recurrence_roundtrip :
    spTaskCreate (fun _ => true) 0 7 [] c8CreateParams = .ok ([c8Row], 1) ∧
    c8Row.isRecurring = true ∧
    c8Row.recurrenceConfig = some "cfg" ∧
    spTaskGet [c8Row] 1 1 = .ok [c8Row] ∧
    spTaskUpdate (fun _ => true) 0 9 [c8Row]
      { idAccount := 1, idTask := 1, recurrenceConfig := some "" } = .ok [c8RowCleared] ∧
    c8RowCleared.isRecurring = false ∧
    c8RowCleared.recurrenceConfig = some "cfg" ∧
    taskCreate (10 * 86400000) [] c8TsParams = .ok ([c8TsRow], 1) ∧
    (taskGet [c8TsRow] [] 1 1).map
      (fun d => (d.recurrenceType, d.recurrenceInterval, d.recurrenceEndDate)) =
      .ok (some "weekly", some 2, some (20 * 86400000)) := by
  decide

/-- Claim C9: spTaskCreate defaults an absent priority to 1, rejects a
priority outside 0..2 with invalidPriority and stores a valid explicit
priority; the in-memory taskCreate performs no priority validation and
stores the out-of-range value 7 unchanged. -/
theorem claim_C9_priority_validation :
    (spTaskCreate (fun _ => true) 0 0 []
        { idAccount := 1, idUser := 1, title := "Some task" }).map
        (fun r => r.1.map (fun t => t.priority)) = .ok [1] ∧
    spTaskCreate (fun _ => true) 0 0 []
      { idAccount := 1, idUser := 1, title := "Some task", priority := some 7 } =
      .error "invalidPriority" ∧
    (spTaskCreate (fun _ => true) 0 0 []
        { idAccount := 1, idUser := 1, title := "Some task", priority := some 2 }).map
        (fun r => r.1.map (fun t => t.priority)) = .ok [2] ∧
    (taskCreate 0 []
        { idAccount := 1, idUser := 1, title := "Some task", priority := some 7 }).map
        (fun r => r.1.map (fun t => t.priority)) = .ok [7] := by
  decide

/-- Claim C5 counterexample: a title of trimmed length 3 (within
[3,100]) whose raw length is 101 is rejected with titleTooLong, because
the length ceiling is checked on the untrimmed title. -/
theorem claim_C5_counterexample :
    (jsTrim longSpacedTitle).length = 3 ∧
    longSpacedTitle.length = 101 ∧
    taskCreate 0 [] { idAccount := 1, idUser := 1, title := longSpacedTitle } =
      .error "titleTooLong" := by
  decide

/-- Claim C5 (amended): on create and update, a non-empty title of
trimmed length below 3 fails with titleTooShort; an untrimmed length
above 100 (with trimmed length at least 3) fails with titleTooLong; and
the title validation succeeds when the trimmed length is at least 3 and
the untrimmed length is at most 100. -/
theorem claim_C5_title_validation (now : Int) (st : List Task)
    (p : TaskCreateRequest) (q : TaskUpdateRequest) (s : String) :
    ((jsTrim p.title).length ≠ 0 → (jsTrim p.title).length < 3 →
      taskCreate now st p = .error "titleTooShort") ∧
    (3 ≤ (jsTrim p.title).length → p.title.length > 100 →
      taskCreate now st p = .error "titleTooLong") ∧
    (3 ≤ (jsTrim p.title).length → p.title.length ≤ 100 →
      taskCreate now st p ≠ .error "titleRequired" ∧
      taskCreate now st p ≠ .error "titleTooShort" ∧
      taskCreate now st p ≠ .error "titleTooLong") ∧
    (q.title = some s → st.any (taskMatch q.idAccount q.idTask) = true →
      (jsTrim s).length < 3 → taskUpdate now st q = .error "titleTooShort") ∧
    (q.title = some s → st.any (taskMatch q.idAccount q.idTask) = true →
      3 ≤ (jsTrim s).length → s.length > 100 →
      taskUpdate now st q = .error "titleTooLong") ∧
    (q.title = some s → st.any (taskMatch q.idAccount q.idTask) = true →
      3 ≤ (jsTrim s).length → s.length ≤ 100 →
      taskUpdate now st q ≠ .error "titleTooShort" ∧
      taskUpdate now st q ≠ .error "titleTooLong") := by
  refine ⟨?_, ?_, ?_, ?_, ?_, ?_⟩
  · intro h0 h1
    unfold taskCreate
    rw [if_neg h0, if_pos h1]
  · intro h3 h100
    unfold taskCreate
    rw [if_neg (by omega), if_neg (by omega), if_pos h100]
  · intro h3 h100
    unfold taskCreate
    rw [if_neg (by omega), if_neg (by omega), if_neg (by omega)]
    refine ⟨?_, ?_, ?_⟩ <;>
    · split
      · decide
      · split
        · decide
        · rcases hr : recurrenceError now p with _ | e
          · simp [hr]
          · rcases recurrenceError_cases now p e hr with h | h | h <;> simp [hr, h]
  · intro hq hany h1
    unfold taskUpdate
    rw [if_neg (by simp [hany]), hq, if_pos (by simpa using h1)]
  · intro hq hany h3 h100
    unfold taskUpdate
    rw [if_neg (by simp [hany]), hq]
    rw [if_neg (by simpa using (by omega : ¬ (jsTrim s).length < 3)),
      if_pos (by simpa using h100)]
  · intro hq hany h3 h100
    unfold taskUpdate
    rw [if_neg (by simp [hany]), hq]
    rw [if_neg (by simpa using (by omega : ¬ (jsTrim s).length < 3)),
      if_neg (by simpa using (by omega : ¬ s.length > 100))]
    refine ⟨?_, ?_⟩ <;>
    · split
      · decide
      · split
        · decide
        · simp

/-- Claim C5 witness: the amended statement evaluated at concrete
titles on create (too short, too long, and valid) and on update. -/
theorem claim_C5_witness :
    taskCreate 0 [] { idAccount := 1, idUser := 1, title := "ab" } =
      .error "titleTooShort" ∧
    taskCreate 0 [] { idAccount := 1, idUser := 1, title := longSpacedTitle } =
      .error "titleTooLong" ∧
    taskCreate 0 [] { idAccount := 1, idUser := 1, title := "Valid title" } ≠
      .error "titleTooShort" ∧
    taskUpdate 0 [c4Task] { idAccount := 1, idTask := 1, title := some "ab" } =
      .error "titleTooShort" :=
  ⟨(claim_C5_title_validation 0 [] { idAccount := 1, idUser := 1, title := "ab" }
      { idAccount := 1, idTask := 1 } "").1 (by decide) (by decide),
   (claim_C5_title_validation 0 [] { idAccount := 1, idUser := 1, title := longSpacedTitle }
      { idAccount := 1, idTask := 1 } "").2.1 (by decide) (by decide),
   ((claim_C5_title_validation 0 [] { idAccount := 1, idUser := 1, title := "Valid title" }
      { idAccount := 1, idTask := 1 } "").2.2.1 (by decide) (by decide)).2.1,
   (claim_C5_title_validation 0 [c4Task] { idAccount := 1, idUser := 1, title := "abc" }
      { idAccount := 1, idTask := 1, title := some "ab" } "ab").2.2.2.1 (by decide)
      (by decide) (by decide)⟩

/-- Claim C6: the 5-attachment ceiling.  If every task has at most 5
attachments, any attachment-create leaves it so; with 5 or more stored
attachments an otherwise valid request fails with tooManyAttachments
(the count check depends only on the stored count, not on creation
order); with fewer than 5 an otherwise valid request succeeds and
appends exactly one attachment. -/
theorem claim_C6_attachment_ceiling (now : Int) (tasks : List Task)
    (atts : List Attachment) (p : AttachmentCreateRequest) :
    ((∀ a t, attCount atts a t ≤ 5) →
      ∀ atts2 i, taskAttachmentCreate now tasks atts p = .ok (atts2, i) →
        ∀ a t, attCount atts2 a t ≤ 5) ∧
    (tasks.any (taskMatch p.idAccount p.idTask) = true →
      validFormats.contains p.fileType = true →
      0 < p.fileSize → p.fileSize ≤ 5242880 →
      5 ≤ attCount atts p.idAccount p.idTask →
      taskAttachmentCreate now tasks atts p = .error "tooManyAttachments") ∧
    (tasks.any (taskMatch p.idAccount p.idTask) = true →
      validFormats.contains p.fileType = true →
      0 < p.fileSize → p.fileSize ≤ 5242880 →
      attCount atts p.idAccount p.idTask < 5 →
      ∃ atts2 i, taskAttachmentCreate now tasks atts p = .ok (atts2, i) ∧
        atts2.length = atts.length + 1 ∧
        attCount atts2 p.idAccount p.idTask = attCount atts p.idAccount p.idTask + 1) := by
  refine ⟨?_, ?_, ?_⟩
  · intro hbound atts2 i hok a t
    unfold taskAttachmentCreate at hok
    split at hok
    · cases hok
    · split at hok
      · cases hok
      · split at hok
        · cases hok
        · split at hok
          · cases hok
          · rename_i hex hfmt hsize hcount
            rw [Except.ok.injEq, Prod.mk.injEq] at hok
            obtain ⟨h1, _⟩ := hok
            subst h1
            rw [attCount_append]
            by_cases hm : (p.idTask == t &&
                (p.idAccount == a : Bool)) = true
            · simp only [Bool.and_eq_true, beq_iff_eq] at hm
              obtain ⟨rfl, rfl⟩ := hm
              have : attCount atts p.idAccount p.idTask ≤ 4 := by omega
              simp only [beq_self_eq_true, Bool.and_self, if_pos]
              omega
            · have : ¬ ((p.idTask == t && (p.idAccount == a : Bool)) = true) := hm
              rw [if_neg this]
              simpa using hbound a t
  · intro hex hfmt hs1 hs2 hcount
    unfold taskAttachmentCreate
    rw [if_neg (by simp [hex]), if_neg (by simpa using hfmt),
      if_neg (by omega), if_pos hcount]
  · intro hex hfmt hs1 hs2 hcount
    unfold taskAttachmentCreate
    rw [if_neg (by simp [hex]), if_neg (by simpa using hfmt),
      if_neg (by omega), if_neg (by omega)]
    refine ⟨_, _, rfl, by simp, ?_⟩
    rw [attCount_append]
    simp

/-- Claim C6 witness: the ceiling evaluated at a task with five stored
attachments (rejection) and with four (success). -/
theorem claim_C6_witness :
    taskAttachmentCreate 0 [c4Task] fiveAtts c6Req = .error "tooManyAttachments" ∧
    ∃ atts2 i, taskAttachmentCreate 0 [c4Task] fourAtts c6Req = .ok (atts2, i) ∧
      atts2.length = fourAtts.length + 1 ∧
      attCount atts2 1 1 = attCount fourAtts 1 1 + 1 :=
  ⟨(claim_C6_attachment_ceiling 0 [c4Task] fiveAtts c6Req).2.1 (by decide) (by decide)
      (by decide) (by decide) (by decide),
   (claim_C6_attachment_ceiling 0 [c4Task] fourAtts c6Req).2.2 (by decide) (by decide)
      (by decide) (by decide) (by decide)⟩

/-- Claim C7: a task stored under account a is unreachable under a
different account b: get, update and delete (and the SQL get) all fail
with taskNotFound, because every storage predicate conjoins the account
id. -/
theorem claim_C7_tenant_isolation (now : Int) (st : List Task)
    (atts : List Attachment) (sqlTasks : List SqlTask) (a b tid : Nat)
    (pU : TaskUpdateRequest)
    (hA : ∀ t ∈ st, t.idTask = tid → t.idAccount = a)
    (hS : ∀ t ∈ sqlTasks, t.idTask = tid → t.idAccount = a)
    (hb : b ≠ a) (hUa : pU.idAccount = b) (hUt : pU.idTask = tid) :
    taskGet st atts b tid = .error "taskNotFound" ∧
    taskUpdate now st pU = .error "taskNotFound" ∧
    taskDelete now st b tid = .error "taskNotFound" ∧
    spTaskGet sqlTasks b tid = .error "taskNotFound" := by
  have hmatch : ∀ t ∈ st, ¬ (taskMatch b tid t = true) := by
    intro t ht hc
    simp only [taskMatch, Bool.and_eq_true, beq_iff_eq] at hc
    exact hb ((hc.1.2).symm.trans (hA t ht hc.1.1))
  have hany : st.any (taskMatch b tid) = false := by
    rw [List.any_eq_false]
    exact hmatch
  have hsql : ∀ t ∈ sqlTasks, ¬ (sqlTaskMatch b tid t = true) := by
    intro t ht hc
    simp only [sqlTaskMatch, Bool.and_eq_true, beq_iff_eq] at hc
    exact hb ((hc.1.2).symm.trans (hS t ht hc.1.1))
  refine ⟨?_, ?_, ?_, ?_⟩
  · unfold taskGet
    rw [List.find?_eq_none.mpr hmatch]
  · unfold taskUpdate
    rw [hUa, hUt, if_pos (by simp [hany])]
  · unfold taskDelete
    rw [if_pos (by simp [hany])]
  · unfold spTaskGet
    rw [if_pos (by simp [List.any_eq_false.mpr hsql])]

/-- Claim C7 witness: the isolation statement evaluated at a task
stored under account 1 and queried under account 2. -/
theorem claim_C7_witness :
    taskGet [c7Task] [] 2 7 = .error "taskNotFound" ∧
    taskUpdate 0 [c7Task] { idAccount := 2, idTask := 7 } = .error "taskNotFound" ∧
    taskDelete 0 [c7Task] 2 7 = .error "taskNotFound" ∧
    spTaskGet [c7SqlTask] 2 7 = .error "taskNotFound" :=
  claim_C7_tenant_isolation 0 [c7Task] [] [c7SqlTask] 1 2 7
    { idAccount := 2, idTask := 7 }
    (by decide) (by decide) (by decide) rfl rfl

/-- Claim C10: when no non-deleted task with the given id exists under
the given account, taskUpdate and taskAttachmentCreate fail with
taskNotFound for every request, including requests whose other fields
are themselves invalid; no state is produced. -/
theorem claim_C10_existence_first (now : Int) (st : List Task)
    (atts : List Attachment) (pU : TaskUpdateRequest) (pA : AttachmentCreateRequest)
    (h1 : ∀ t ∈ st, ¬ (taskMatch pU.idAccount pU.idTask t = true))
    (h2 : ∀ t ∈ st, ¬ (taskMatch pA.idAccount pA.idTask t = true)) :
    taskUpdate now st pU = .error "taskNotFound" ∧
    taskAttachmentCreate now st atts pA = .error "taskNotFound" := by
  refine ⟨?_, ?_⟩
  · unfold taskUpdate
    rw [if_pos (by simp [List.any_eq_false.mpr h1])]
  · unfold taskAttachmentCreate
    rw [if_pos (by simp [List.any_eq_false.mpr h2])]

/-- Claim C10 witness: against a missing task id, an update with a
too-short title and an attachment with a disallowed file type both fail
with taskNotFound. -/
theorem claim_C10_witness :
    taskUpdate 0 [c7Task] c10Update = .error "taskNotFound" ∧
    taskAttachmentCreate 0 [c7Task] [] c10Att = .error "taskNotFound" :=
  claim_C10_existence_first 0 [c7Task] [] c10Update c10Att (by decide) (by decide)

/-- Claim C4: a successful delete soft-deletes the task and every
subtask of that task under that account (previously deleted subtasks
stay deleted), after which a get of that task under the same account
fails with taskNotFound and a list for that account excludes the task.
The subtask cascade lives in spTaskDelete; the in-memory engine's
delete, get and list are covered for the task itself, assuming the
stored task id is unambiguous (at most one live row). -/
theorem claim_C4_delete_cascade (now now2 : Int)
    (sqlTasks : List SqlTask) (subs : List Subtask)
    (st st' : List Task) (atts : List Attachment) (a tid u : Nat)
    (tasks' : List SqlTask) (subs' : List Subtask)
    (hsql : spTaskDelete now sqlTasks subs a tid = .ok (tasks', subs'))
    (hts : taskDelete now st a tid = .ok st')
    (huniq : (st.filter (taskMatch a tid)).length ≤ 1) :
    (∀ r ∈ tasks', r.idTask = tid → r.idAccount = a → r.deleted = true) ∧
    (∀ s ∈ subs', s.idTask = tid → s.idAccount = a → s.deleted = true) ∧
    spTaskGet tasks' a tid = .error "taskNotFound" ∧
    taskGet st' atts a tid = .error "taskNotFound" ∧
    (∀ item ∈ taskList now2 st' { idAccount := a, idUser := u }, item.idTask ≠ tid) := by
  unfold spTaskDelete at hsql
  split at hsql
  · cases hsql
  · rw [Except.ok.injEq, Prod.mk.injEq] at hsql
    obtain ⟨hT, hS⟩ := hsql
    subst hT
    subst hS
    unfold taskDelete at hts
    split at hts
    · cases hts
    · rw [Except.ok.injEq] at hts
      subst hts
      have hpred : ∀ x ∈ replaceFirst (taskMatch a tid)
          (fun t => { t with deleted := true, dateModified := now }) st,
          taskMatch a tid x = false :=
        replaceFirst_pred_false _ _ (fun x _ => by simp [taskMatch]) st huniq
      refine ⟨?_, ?_, ?_, ?_, ?_⟩
      · intro r hr h1 h2
        obtain ⟨t, ht, heq⟩ := List.mem_map.mp hr
        subst heq
        by_cases hcond : (t.idTask == tid && (t.idAccount == a : Bool)) = true
        · rw [if_pos hcond] at h1 h2 ⊢
        · rw [if_neg hcond] at h1 h2 ⊢
          exact absurd (by simp [h1, h2]) hcond
      · intro s hs h1 h2
        obtain ⟨t, ht, heq⟩ := List.mem_map.mp hs
        subst heq
        by_cases hcond : (t.idTask == tid && (t.idAccount == a : Bool) && !t.deleted) = true
        · rw [if_pos hcond] at h1 h2 ⊢
        · rw [if_neg hcond] at h1 h2 ⊢
          cases hb : t.deleted with
          | true => rfl
          | false =>
            exfalso
            apply hcond
            simp [h1, h2, hb]
      · have hany : (sqlTasks.map (fun t =>
            if t.idTask == tid && t.idAccount == a then
              { t with deleted := true, dateModified := now }
            else t)).any (sqlTaskMatch a tid) = false := by
          rw [List.any_eq_false]
          intro r hr
          obtain ⟨t, ht, heq⟩ := List.mem_map.mp hr
          subst heq
          by_cases hcond : (t.idTask == tid && (t.idAccount == a : Bool)) = true
          · rw [if_pos hcond]
            simp [sqlTaskMatch]
          · rw [if_neg hcond]
            simp only [sqlTaskMatch, Bool.and_eq_true, beq_iff_eq] at hcond ⊢
            tauto
        unfold spTaskGet
        rw [if_pos (by rw [hany]; decide)]
      · unfold taskGet
        rw [List.find?_eq_none.mpr (fun x hx => by simp [hpred x hx])]
      · intro item hitem
        simp only [taskList, mem_sortByCmp, List.mem_map] at hitem
        obtain ⟨t, ht, heq⟩ := hitem
        subst heq
        obtain ⟨hmem, hcond⟩ := List.mem_filter.mp ht
        intro hid
        have hnm : ¬ (taskMatch a tid t = true) := by simp [hpred t hmem]
        apply hnm
        simp only [Bool.and_eq_true, beq_iff_eq, Bool.not_eq_true'] at hcond
        simp only [taskMatch, Bool.and_eq_true, beq_iff_eq, beq_self_eq_true]
        exact ⟨⟨hid, hcond.1.1⟩, by simp [hcond.2]⟩

/-- Claim C4 witness: the cascade statement evaluated at a one-task,
one-subtask state. -/
theorem claim_C4_witness :
    spTaskDelete 1 [c4SqlTask] [c4Subtask] 1 1 = .ok ([c4SqlTaskDel], [c4SubtaskDel]) ∧
    taskDelete 1 [c4Task] 1 1 = .ok [c4TaskDel] ∧
    c4SqlTaskDel.deleted = true ∧
    c4SubtaskDel.deleted = true ∧
    spTaskGet [c4SqlTaskDel] 1 1 = .error "taskNotFound" ∧
    taskGet [c4TaskDel] [] 1 1 = .error "taskNotFound" ∧
    (∀ item ∈ taskList 2 [c4TaskDel] { idAccount := 1, idUser := 1 }, item.idTask ≠ 1) :=
  have h := claim_C4_delete_cascade 1 2 [c4SqlTask] [c4Subtask] [c4Task] [c4TaskDel]
    [] 1 1 1 [c4SqlTaskDel] [c4SubtaskDel] (by decide) (by decide) (by decide)
  ⟨by decide, by decide, by decide, by decide, h.2.2.1, h.2.2.2.1, h.2.2.2.2⟩

end TodoSpec
